import Mathlib

/-!
Verification development for the `llm-ocr-server` repository
(`src/llm/got-ocr-2.0-cpu/{core.py, api_server.py, cli.py}`).

The Python sources are shallowly embedded below.  External capabilities
(the transformers model's `chat`/`chat_crop` entry points, `base64.b64decode`,
`PIL.Image.open`) are abstracted as oracle functions bundled in an `Env`
record; the code under verification is the request-processing pipeline that
wraps them, translated line by line.  Observable side effects (model
acquisition, inference calls, CLI output) are recorded as event traces so
that ordering properties ("validated before the model is touched") can be
stated.
-/

namespace OCRServer

/-! ## Python truthiness for `Optional[str]` values

`if by_base64:` / `if ocr_box:` in the source test Python truthiness:
`None` and the empty string are falsy, every other string truthy. -/

def truthyOptStr : Option String → Bool
  | none => false
  | some s => s ≠ ""

/-! ## Image Ingestor (core.py line 60, `PILImage.open(image).convert('RGB')`)

A decoded PIL image is represented by its mode string and pixel dimensions.
`channelsOfMode` records the channel count PIL associates with each of the
modes named by the spec; `convert('RGB')` keeps the pixel dimensions and
re-encodes the raster in mode `"RGB"` (documented PIL contract of
`Image.convert`). -/

structure Image where
  mode : String
  width : Nat
  height : Nat
  deriving DecidableEq, Repr

def channelsOfMode : String → Nat
  | "RGB" => 3
  | "RGBA" => 4
  | "L" => 1
  | "P" => 1
  | "LA" => 2
  | "CMYK" => 4
  | _ => 0

def convertRGB (im : Image) : Image :=
  { mode := "RGB", width := im.width, height := im.height }

/-! ## Model Handle Cache (core.py, `GOTOCRProcessor.get_model_and_tokenizer`)

The Python object keeps `self._model_cache`, a dict holding at most the one
key `"got_ocr_model"`, mapped to `{"model": …, "tokenizer": …}`.  We model
the dict as an `Option` of the entry.  Object identity of the constructed
model/tokenizer pair is modelled by tagging each construction with a fresh
id drawn from a construction counter (the spec's "side-channel counter of
construction calls"). -/

structure ModelCacheEntry where
  model : Nat
  tokenizer : Nat
  deriving DecidableEq, Repr

structure ProcessorState where
  model_cache : Option ModelCacheEntry
  constructions : Nat
  deriving DecidableEq, Repr

/-- `GOTOCRProcessor.__init__`: `self._model_cache = {}`. -/
def ProcessorState.init : ProcessorState :=
  { model_cache := none, constructions := 0 }

/-- `GOTOCRProcessor.get_model_and_tokenizer`: if the cache key is absent,
construct tokenizer and model (expensive; counted) and store them; in both
cases return the cached pair. -/
def get_model_and_tokenizer (s : ProcessorState) :
    (Nat × Nat) × ProcessorState :=
  match s.model_cache with
  | some e => ((e.model, e.tokenizer), s)
  | none =>
      let e : ModelCacheEntry :=
        { model := 2 * s.constructions, tokenizer := 2 * s.constructions + 1 }
      ((e.model, e.tokenizer),
       { model_cache := some e, constructions := s.constructions + 1 })

/-- `GOTOCRProcessor.clear_cache`: `self._model_cache.clear()`. -/
def clear_cache (s : ProcessorState) : ProcessorState :=
  { s with model_cache := none }

/-- `n` successive calls to `get_model_and_tokenizer` on the same processor
object, collecting the returned (model, tokenizer) pairs. -/
def acquireN : Nat → ProcessorState → List (Nat × Nat) × ProcessorState
  | 0, s => ([], s)
  | n + 1, s =>
      let (r, s1) := get_model_and_tokenizer s
      let (rs, s2) := acquireN n s1
      (r :: rs, s2)

/-! ## OCR Dispatcher (core.py, `GOTOCRProcessor.process_image`)

The kwargs dict built at core.py lines 48-58: `ocr_box` / `ocr_color` keys
are present only when the arguments are truthy (`if ocr_box:`), modelled by
an `Option` that is `none` when the key is absent. -/

structure Kwargs where
  ocr_type : String
  render : Bool
  save_render_file : Option String
  gradio_input : Bool
  ocr_box : Option String
  ocr_color : Option String
  deriving DecidableEq, Repr

/-- Observable actions of the core pipeline, in program order:
acquiring the cached model handle, and invoking one of the two model entry
points (`tiled = true` for `model.chat_crop`, `false` for `model.chat`) on a
decoded image with a kwargs dict. -/
inductive Event
  | acquire_model
  | infer (tiled : Bool) (im : Image) (k : Kwargs)
  deriving DecidableEq, Repr

/-- External capabilities, out of scope per the spec, consumed through their
output contract: base64 decoding and image decoding may fail (exception,
modelled as `Except.error` with the message), and the two model entry points
return the model's raw string (or raise). -/
structure Env where
  b64decode : String → Except String (List Nat)
  decodeImage : List Nat → Except String Image
  chat : Image → Kwargs → Except String String
  chat_crop : Image → Kwargs → Except String String

/-- Keyword arguments of `GOTOCRProcessor.process_image`, with the source's
Python defaults. -/
structure DispatchArgs where
  ocr_type : String := "ocr"
  method : String := "chat"
  render : Bool := false
  save_render_file : Option String := none
  ocr_box : Option String := none
  ocr_color : Option String := none
  deriving DecidableEq, Repr

/-- core.py lines 48-58: the kwargs dict passed to the model entry point.
`gradio_input` is always `True`; `ocr_box`/`ocr_color` keys are added only
when truthy. -/
def mkKwargs (a : DispatchArgs) : Kwargs :=
  { ocr_type := a.ocr_type
  , render := a.render
  , save_render_file := a.save_render_file
  , gradio_input := true
  , ocr_box := if truthyOptStr a.ocr_box then a.ocr_box else none
  , ocr_color := if truthyOptStr a.ocr_color then a.ocr_color else none }

/-- `GOTOCRProcessor.process_image` (core.py lines 33-61).  In order:
acquire the model handle; select `model.chat_crop` iff `method == "chat_crop"`
(everything else falls to `model.chat`); build kwargs; decode the image and
force RGB; invoke the selected entry point and return its value unchanged.
There is no validation and no render-file read-back in this function. -/
def core_process_image (env : Env) (imageBytes : List Nat) (a : DispatchArgs) :
    List Event × Except String String :=
  let tiled := a.method == "chat_crop"
  let kwargs := mkKwargs a
  match env.decodeImage imageBytes with
  | Except.error e => ([Event.acquire_model], Except.error e)
  | Except.ok im0 =>
      let im := convertRGB im0
      ([Event.acquire_model, Event.infer tiled im kwargs],
       (if tiled then env.chat_crop else env.chat) im kwargs)

/-! ## HTTP adapter (api_server.py) -/

/-- api_server.py `OcrType` enum. -/
inductive OcrType
  | ocr
  | format
  deriving DecidableEq, BEq, Repr

def OcrType.value : OcrType → String
  | .ocr => "ocr"
  | .format => "format"

/-- api_server.py `Method` enum. -/
inductive Method
  | chat
  | chat_crop
  deriving DecidableEq, BEq, Repr

def Method.value : Method → String
  | .chat => "chat"
  | .chat_crop => "chat_crop"

/-- api_server.py `_process_image` (lines 74-102): fill an in-memory buffer
from the uploaded file when one is given, otherwise from the decoded base64
payload (raising if that is `None`), then hand the buffer to
`processor.process_image`.  An uploaded file is modelled by its byte
content. -/
def _process_image (env : Env)
    (by_file : Option (List Nat)) (by_base64 : Option String)
    (ocr_type : OcrType) (method : Method) (render : Bool)
    (ocr_box : Option String) (ocr_color : Option String) :
    List Event × Except String String :=
  let imageBytes : Except String (List Nat) :=
    match by_file with
    | some f => Except.ok f
    | none =>
        match by_base64 with
        | none => Except.error "Base64 input is None"
        | some b => env.b64decode b
  match imageBytes with
  | Except.error e => ([], Except.error e)
  | Except.ok bs =>
      core_process_image env bs
        { ocr_type := ocr_type.value
        , method := method.value
        , render := render
        , save_render_file := none
        , ocr_box := ocr_box
        , ocr_color := ocr_color }

/-- Form fields of the `/ocr` endpoint, with the source's defaults. -/
structure HttpForm where
  by_file : Option (List Nat) := none
  by_base64 : Option String := none
  ocr_type : OcrType := OcrType.ocr
  method : Method := Method.chat
  render : Bool := false
  ocr_box : Option String := none
  ocr_color : Option String := none
  deriving DecidableEq, Repr

/-- Outcome of the `/ocr` handler: `ok result` stands for the 200 response
with JSON body `{"result": result}`; `error status detail` for the
`HTTPException` FastAPI serializes as `{"detail": detail}`. -/
inductive HttpResponse
  | ok (result : String)
  | error (status : Nat) (detail : String)
  deriving DecidableEq, Repr

/-- api_server.py `process_image` handler (lines 106-154): reject when
neither a file nor a truthy base64 payload is supplied; reject
`render` without `format`; otherwise run `_process_image`, wrapping any
exception from it into a 500. -/
def api_process_image (env : Env) (f : HttpForm) : List Event × HttpResponse :=
  if f.by_file.isNone && !truthyOptStr f.by_base64 then
    ([], HttpResponse.error 400 "Either file or input_base64 must be provided")
  else if f.render && !(f.ocr_type == OcrType.format) then
    ([], HttpResponse.error 400 "Render option is only available for format OCR type")
  else
    match _process_image env f.by_file f.by_base64 f.ocr_type f.method f.render
        f.ocr_box f.ocr_color with
    | (evs, Except.ok r) => (evs, HttpResponse.ok r)
    | (evs, Except.error e) =>
        (evs, HttpResponse.error 500 ("Error processing image: " ++ e))

/-! ## Third-party service adapter (api_server.py, `BookxnoteLocalOCRService`) -/

/-- The SDK auth value; the handler ignores it (`_ = auth`). -/
structure ApiAuth where
  token : String
  deriving DecidableEq, Repr

/-- `PostOcrByBxnLocalOcrResponseData`: the source sets
`confidence=1.0` (a fixed literal, modelled as the exact number 1) and
`time_cost = ed - bg` from two clock readings. -/
structure BxnData where
  text : String
  confidence : Nat
  time_cost : Int
  deriving DecidableEq, Repr

/-- Outcome of the service operation: the success response, or the
`BxnLocalOCRBadRequestError` body. -/
inductive BxnResponse
  | ok (code : Nat) (msg : String) (data : BxnData)
  | badRequest (code : Nat) (msg : String)
  deriving DecidableEq, Repr

/-- `BookxnoteLocalOCRService.post_ocr_by_bxn_local_ocr` (api_server.py lines
158-199).  `bg` and `ed` are the two `time.time()` readings taken around the
processing call.  Empty/missing `base64_image` raises the 400 body before
any processing; any exception from `_process_image` is downgraded to the 400
body; success returns code 0, msg "success", the text, confidence 1 and the
elapsed time. -/
def post_ocr_by_bxn_local_ocr (env : Env) (bg ed : Int)
    (base64_image : Option String) (auth : ApiAuth) :
    List Event × BxnResponse :=
  if !truthyOptStr base64_image then
    ([], BxnResponse.badRequest 400 "base64_image is required and must non empty")
  else
    match _process_image env none base64_image OcrType.ocr Method.chat_crop false
        none none with
    | (evs, Except.ok r) =>
        (evs, BxnResponse.ok 0 "success"
          { text := r, confidence := 1, time_cost := ed - bg })
    | (evs, Except.error e) =>
        (evs, BxnResponse.badRequest 400 ("Error processing image: " ++ e))

/-! ## CLI adapter (cli.py, `process_image` command)

The CLI does not use `GOTOCRProcessor`; it loads the model itself
(`load_model()`) and calls `model.chat` / `model.chat_crop` directly with a
path string, so it has its own oracle record and event alphabet. -/

inductive CliEvent
  | load_model
  | echo_err (msg : String)
  | infer (tiled : Bool) (image_path : String) (ocr_type : String)
      (render : Bool) (save_render_file : Option String)
  | write_text (path : String) (content : String)
  | echo (msg : String)
  deriving DecidableEq, Repr

/-- `typer.Abort()` exits with a non-zero status; otherwise the command
completes with exit 0. -/
inductive CliOutcome
  | aborted
  | completed
  deriving DecidableEq, Repr

/-- The model entry points as the CLI calls them:
`processor(tokenizer, str(image_path), ocr_type=…, render=…,
save_render_file=…)`. -/
structure CliEnv where
  chat : String → String → Bool → Option String → String
  chat_crop : String → String → Bool → Option String → String

/-- cli.py `process_image` (lines 17-51), as the trace of its effects.  In
program order: `load_model()` runs first; then render-without-format echoes
an error and aborts; then the processor is `model.chat_crop` iff
`method == "crop"` (note: the literal `"crop"`, not `"chat_crop"`), with no
rejection of other values; the result is written to `output_file` (echoing
the save path) when one is given, else echoed to stdout. -/
def cli_process_image (env : CliEnv) (image_path : String)
    (ocr_type : String) (method : String) (render : Bool)
    (output_file : Option String) : List CliEvent × CliOutcome :=
  if render && !(ocr_type == "format") then
    ([CliEvent.load_model,
      CliEvent.echo_err "Error: Render option is only available for format OCR type"],
     CliOutcome.aborted)
  else
    let tiled := method == "crop"
    let srf := output_file
    let result := (if tiled then env.chat_crop else env.chat)
      image_path ocr_type render srf
    let tail :=
      match output_file with
      | some p => [CliEvent.write_text p result,
                   CliEvent.echo ("Results saved to " ++ p)]
      | none => [CliEvent.echo result]
    ([CliEvent.load_model,
      CliEvent.infer tiled image_path ocr_type render srf] ++ tail,
     CliOutcome.completed)

/-! ## Concrete test environments, used to instantiate hypotheses -/

/-- A concrete environment whose oracles always succeed: base64 strings
decode to their length, every byte string decodes to a 2x3 grayscale image,
and the two model entry points return fixed raw strings. -/
def envT : Env :=
  { b64decode := fun s => Except.ok [s.length]
  , decodeImage := fun _ => Except.ok { mode := "L", width := 2, height := 3 }
  , chat := fun _ _ => Except.ok "RAW_TEXT"
  , chat_crop := fun _ _ => Except.ok "RAW_CROP" }

/-- A concrete CLI environment with fixed model outputs. -/
def cliEnvT : CliEnv :=
  { chat := fun _ _ _ _ => "CHAT_RESULT"
  , chat_crop := fun _ _ _ _ => "CROP_RESULT" }

end OCRServer

namespace OCRServer

/-! ## Helper lemmas -/

theorem get_cached_eq (s : ProcessorState) (e : ModelCacheEntry)
    (h : s.model_cache = some e) :
    get_model_and_tokenizer s = ((e.model, e.tokenizer), s) := by
  unfold get_model_and_tokenizer
  rw [h]

theorem acquireN_cached (n : Nat) (s : ProcessorState) (e : ModelCacheEntry)
    (h : s.model_cache = some e) :
    acquireN n s = (List.replicate n (e.model, e.tokenizer), s) := by
  induction n with
  | zero => simp [acquireN, List.replicate]
  | succ n ih =>
      simp only [acquireN, get_cached_eq s e h, ih, List.replicate]

/-- Shape of any inference event the dispatcher emits: it is tagged by the
raw string comparison `method == "chat_crop"`, carries exactly the kwargs
built by `mkKwargs`, and its image is the RGB conversion of the decoded
input. -/
theorem core_infer_mem {env : Env} {imageBytes : List Nat} {a : DispatchArgs}
    {b : Bool} {i : Image} {k : Kwargs}
    (h : Event.infer b i k ∈ (core_process_image env imageBytes a).1) :
    b = (a.method == "chat_crop") ∧ k = mkKwargs a ∧
      ∃ im, env.decodeImage imageBytes = Except.ok im ∧ i = convertRGB im := by
  unfold core_process_image at h
  cases hd : env.decodeImage imageBytes with
  | error e => rw [hd] at h; simp at h
  | ok im0 =>
      rw [hd] at h
      simp only [List.mem_cons, List.mem_singleton, List.not_mem_nil, or_false] at h
      rcases h with h | h
      · exact absurd h (by simp)
      · obtain ⟨hb, hi, hk⟩ := Event.infer.inj h
        exact ⟨hb, hk, im0, rfl, hi⟩

/-- Shape of any inference event `_process_image` emits. -/
theorem underscore_infer_mem {env : Env} {by_file : Option (List Nat)}
    {by_base64 : Option String} {ocr_type : OcrType} {method : Method}
    {render : Bool} {ocr_box ocr_color : Option String}
    {b : Bool} {i : Image} {k : Kwargs}
    (h : Event.infer b i k ∈
      (_process_image env by_file by_base64 ocr_type method render
        ocr_box ocr_color).1) :
    b = (method.value == "chat_crop") ∧
      k = mkKwargs
        { ocr_type := ocr_type.value
        , method := method.value
        , render := render
        , save_render_file := none
        , ocr_box := ocr_box
        , ocr_color := ocr_color } := by
  unfold _process_image at h
  rcases by_file with _ | f
  · rcases by_base64 with _ | s
    · simp at h
    · dsimp only at h
      cases hb : env.b64decode s with
      | error e => rw [hb] at h; simp at h
      | ok bs =>
          rw [hb] at h
          exact ⟨(core_infer_mem h).1, (core_infer_mem h).2.1⟩
  · exact ⟨(core_infer_mem h).1, (core_infer_mem h).2.1⟩

/-- The `/ocr` handler's trace is the trace of its `_process_image` call
(empty when validation rejects). -/
theorem api_infer_mem {env : Env} {f : HttpForm} {b : Bool} {i : Image}
    {k : Kwargs} (h : Event.infer b i k ∈ (api_process_image env f).1) :
    b = (f.method.value == "chat_crop") ∧
      k = mkKwargs
        { ocr_type := f.ocr_type.value
        , method := f.method.value
        , render := f.render
        , save_render_file := none
        , ocr_box := f.ocr_box
        , ocr_color := f.ocr_color } := by
  unfold api_process_image at h
  by_cases h1 : (f.by_file.isNone && !truthyOptStr f.by_base64) = true
  · rw [if_pos h1] at h; simp at h
  · rw [if_neg h1] at h
    by_cases h2 : (f.render && !(f.ocr_type == OcrType.format)) = true
    · rw [if_pos h2] at h; simp at h
    · rw [if_neg h2] at h
      cases hp : _process_image env f.by_file f.by_base64 f.ocr_type f.method
          f.render f.ocr_box f.ocr_color with
      | mk evs r =>
          rw [hp] at h
          cases r with
          | ok v =>
              simp only at h
              have hh : Event.infer b i k ∈
                  (_process_image env f.by_file f.by_base64 f.ocr_type f.method
                    f.render f.ocr_box f.ocr_color).1 := by
                rw [hp]; exact h
              exact underscore_infer_mem hh
          | error e =>
              simp only at h
              have hh : Event.infer b i k ∈
                  (_process_image env f.by_file f.by_base64 f.ocr_type f.method
                    f.render f.ocr_box f.ocr_color).1 := by
                rw [hp]; exact h
              exact underscore_infer_mem hh

/-! ## Claims -/

/-- C6: `get_model_and_tokenizer` is idempotent: starting from a fresh
processor, any number `n ≥ 1` of successive calls (without an intervening
`clear_cache`) all return the same underlying model and tokenizer objects,
and the expensive construction runs exactly once. -/
theorem C6_model_cache_idempotent (n : Nat) (h : 1 ≤ n) :
    ∃ e : ModelCacheEntry,
      (acquireN n ProcessorState.init).1 = List.replicate n (e.model, e.tokenizer) ∧
      (acquireN n ProcessorState.init).2.constructions = 1 := by
  obtain ⟨m, rfl⟩ : ∃ m, n = m + 1 := ⟨n - 1, by omega⟩
  have hc : acquireN m
      { model_cache := some { model := 0, tokenizer := 1 }, constructions := 1 } =
      (List.replicate m ((0 : Nat), (1 : Nat)),
       { model_cache := some { model := 0, tokenizer := 1 }, constructions := 1 }) :=
    acquireN_cached m _ { model := 0, tokenizer := 1 } rfl
  refine ⟨{ model := 0, tokenizer := 1 }, ?_, ?_⟩ <;>
    simp [acquireN, get_model_and_tokenizer, ProcessorState.init, hc, List.replicate]

/-- C6 witness at n = 3. -/
theorem C6_model_cache_idempotent_witness :
    ∃ e : ModelCacheEntry,
      (acquireN 3 ProcessorState.init).1 = List.replicate 3 (e.model, e.tokenizer) ∧
      (acquireN 3 ProcessorState.init).2.constructions = 1 :=
  C6_model_cache_idempotent 3 (by decide)

/-- C7: for every decodable input image, whatever its source mode, the image
the dispatcher hands to the model is the forced-RGB conversion: it has
exactly 3 channels and the same pixel dimensions as the decoded input. -/
theorem C7_ingestor_forces_rgb (env : Env) (imageBytes : List Nat)
    (a : DispatchArgs) (im : Image) (b : Bool) (i : Image) (k : Kwargs)
    (hdec : env.decodeImage imageBytes = Except.ok im)
    (hmem : Event.infer b i k ∈ (core_process_image env imageBytes a).1) :
    channelsOfMode i.mode = 3 ∧ i.width = im.width ∧ i.height = im.height := by
  obtain ⟨-, -, im2, hd2, hi⟩ := core_infer_mem hmem
  rw [hdec] at hd2
  cases hd2
  subst hi
  exact ⟨rfl, rfl, rfl⟩

/-- C7 witness: a concrete grayscale (mode "L") 2x3 input. -/
theorem C7_ingestor_forces_rgb_witness :
    envT.decodeImage [0] = Except.ok { mode := "L", width := 2, height := 3 } ∧
    Event.infer false (convertRGB { mode := "L", width := 2, height := 3 })
        (mkKwargs {}) ∈ (core_process_image envT [0] {}).1 ∧
    (channelsOfMode (convertRGB { mode := "L", width := 2, height := 3 }).mode = 3 ∧
     (convertRGB { mode := "L", width := 2, height := 3 }).width = 2 ∧
     (convertRGB { mode := "L", width := 2, height := 3 }).height = 3) :=
  ⟨rfl, by decide,
   C7_ingestor_forces_rgb envT [0] {} { mode := "L", width := 2, height := 3 }
     false (convertRGB { mode := "L", width := 2, height := 3 }) (mkKwargs {})
     rfl (by decide)⟩

/-- C1 counterexample: a request supplying BOTH an uploaded file and a
base64 payload is not rejected — the handler returns a 200 success, so no
InputMissing/RequestInvalid error is raised for the both-supplied case. -/
theorem C1_counterexample :
    (api_process_image envT
      { by_file := some [7], by_base64 := some "abc" }).2 =
      HttpResponse.ok "RAW_TEXT" := by
  rfl

/-- C1 (amended): supplying neither a file nor a truthy base64 payload is
rejected deterministically with the 400 "Either file or input_base64 must
be provided" error before any processing; supplying both is accepted, the
uploaded file being used as the source. -/
theorem C1_missing_input_rejected (env : Env) (f : HttpForm)
    (hfile : f.by_file = none) (hb64 : truthyOptStr f.by_base64 = false) :
    api_process_image env f =
      ([], HttpResponse.error 400 "Either file or input_base64 must be provided") := by
  unfold api_process_image
  rw [hfile, hb64]
  rfl

/-- C1 witness: the default form (no file, no base64). -/
theorem C1_missing_input_rejected_witness :
    ({} : HttpForm).by_file = none ∧
    truthyOptStr ({} : HttpForm).by_base64 = false ∧
    api_process_image envT {} =
      ([], HttpResponse.error 400 "Either file or input_base64 must be provided") :=
  ⟨rfl, rfl, C1_missing_input_rejected envT {} rfl rfl⟩

/-- C10: when both an uploaded file and a base64 payload are supplied, the
file is used and the base64 payload is ignored: the handler's behaviour
equals that of the identical request with the base64 field dropped. -/
theorem C10_file_precedence (env : Env) (f : HttpForm) (bs : List Nat)
    (h : f.by_file = some bs) :
    api_process_image env f = api_process_image env { f with by_base64 := none } := by
  unfold api_process_image _process_image
  rw [h]
  rfl

/-- C10 witness: a concrete request carrying both sources. -/
theorem C10_file_precedence_witness :
    ({ by_file := some [7], by_base64 := some "zz" } : HttpForm).by_file = some [7] ∧
    api_process_image envT { by_file := some [7], by_base64 := some "zz" } =
      api_process_image envT
        { ({ by_file := some [7], by_base64 := some "zz" } : HttpForm) with
          by_base64 := none } :=
  ⟨rfl, C10_file_precedence envT { by_file := some [7], by_base64 := some "zz" } [7] rfl⟩

/-- C2 counterexample: for a render=true request on the HTTP surface, no
request-scoped output path is assigned (the inference call receives
`save_render_file = none`), no render artifact is read back (the result is
the model's raw text return value), and the success response is the
`{result: string}` shape, not a raw rendered-HTML body. -/
theorem C2_counterexample :
    api_process_image envT
      { by_file := some [7], ocr_type := OcrType.format, render := true } =
      ([Event.acquire_model,
        Event.infer false { mode := "RGB", width := 2, height := 3 }
          { ocr_type := "format", render := true, save_render_file := none,
            gradio_input := true, ocr_box := none, ocr_color := none }],
       HttpResponse.ok "RAW_TEXT") := by
  rfl

/-- C2 (amended): the HTTP adapter never assigns a render output path —
every inference call it triggers carries `save_render_file = none` — and the
model's raw return value is returned unchanged inside the `{result: string}`
response, also when render=true; no render artifact is read back. -/
theorem C2_no_render_path_assigned (env : Env) (f : HttpForm)
    (b : Bool) (i : Image) (k : Kwargs)
    (h : Event.infer b i k ∈ (api_process_image env f).1) :
    k.save_render_file = none := by
  rw [(api_infer_mem h).2]
  rfl

/-- C2 witness: the render=true request of the counterexample. -/
theorem C2_no_render_path_assigned_witness :
    Event.infer false { mode := "RGB", width := 2, height := 3 }
        { ocr_type := "format", render := true, save_render_file := none,
          gradio_input := true, ocr_box := none, ocr_color := none } ∈
      (api_process_image envT
        { by_file := some [7], ocr_type := OcrType.format, render := true }).1 ∧
    ({ ocr_type := "format", render := true, save_render_file := none,
       gradio_input := true, ocr_box := none, ocr_color := none } : Kwargs).save_render_file
      = none :=
  ⟨by decide,
   C2_no_render_path_assigned envT
     { by_file := some [7], ocr_type := OcrType.format, render := true }
     false { mode := "RGB", width := 2, height := 3 }
     { ocr_type := "format", render := true, save_render_file := none,
       gradio_input := true, ocr_box := none, ocr_color := none }
     (by decide)⟩

/-- C3 counterexample: called directly with render=true and ocr_type="ocr"
(not "format"), the dispatcher does not reject — it acquires the model and
invokes the single-pass entry point. -/
theorem C3_counterexample :
    core_process_image envT [0] { ocr_type := "ocr", render := true } =
      ([Event.acquire_model,
        Event.infer false { mode := "RGB", width := 2, height := 3 }
          { ocr_type := "ocr", render := true, save_render_file := none,
            gradio_input := true, ocr_box := none, ocr_color := none }],
       Except.ok "RAW_TEXT") := by
  rfl

/-- C3 (amended): the dispatcher (`GOTOCRProcessor.process_image`) performs
no render/type validation itself: for every configuration — including
render=true with a non-structured ocr_type — it invokes the model whenever
the image decodes; the invariant is enforced only by its HTTP caller. -/
theorem C3_dispatcher_never_rejects (env : Env) (imageBytes : List Nat)
    (a : DispatchArgs) (im : Image)
    (hdec : env.decodeImage imageBytes = Except.ok im) :
    Event.infer (a.method == "chat_crop") (convertRGB im) (mkKwargs a) ∈
      (core_process_image env imageBytes a).1 := by
  unfold core_process_image
  rw [hdec]
  simp

/-- C3 witness: misuse configuration render=true, ocr_type="ocr". -/
theorem C3_dispatcher_never_rejects_witness :
    envT.decodeImage [0] = Except.ok { mode := "L", width := 2, height := 3 } ∧
    Event.infer (("chat" : String) == "chat_crop")
        (convertRGB { mode := "L", width := 2, height := 3 })
        (mkKwargs { ocr_type := "ocr", render := true }) ∈
      (core_process_image envT [0] { ocr_type := "ocr", render := true }).1 :=
  ⟨rfl,
   C3_dispatcher_never_rejects envT [0] { ocr_type := "ocr", render := true }
     { mode := "L", width := 2, height := 3 } rfl⟩

/-- C4 (code bug): with `--method chat_crop` — the very value the CLI's own
help text `[chat|chat_crop]` documents — the CLI routes to the single-pass
`model.chat` path (its switch tests the literal "crop"), completing without
any error instead of using the tiled path or aborting. -/
theorem C4_cli_chat_crop_misroutes :
    cli_process_image cliEnvT "img.png" "ocr" "chat_crop" false none =
      ([CliEvent.load_model,
        CliEvent.infer false "img.png" "ocr" false none,
        CliEvent.echo "CHAT_RESULT"],
       CliOutcome.completed) := by
  rfl

/-- C5 counterexample: on the CLI entry point, a request failing validation
(render=true with ocr_type="ocr") still constructs the model: `load_model()`
is the first recorded action, before the validation error is echoed. -/
theorem C5_counterexample :
    cli_process_image cliEnvT "img.png" "ocr" "chat" true none =
      ([CliEvent.load_model,
        CliEvent.echo_err "Error: Render option is only available for format OCR type"],
       CliOutcome.aborted) := by
  rfl

/-- C5 (amended): on the HTTP entry point, every 400 validation rejection
happens before any model acquisition or inference (its dispatcher trace is
empty); on the CLI entry point the model is loaded before validation, so a
failing validation still constructs the model but performs no inference. -/
theorem C5_validation_before_model (env : Env) (f : HttpForm) (d : String)
    (cenv : CliEnv) (p t m : String) (r : Bool) (o : Option String)
    (hapi : (api_process_image env f).2 = HttpResponse.error 400 d)
    (hcli : (cli_process_image cenv p t m r o).2 = CliOutcome.aborted) :
    (api_process_image env f).1 = [] ∧
    (cli_process_image cenv p t m r o).1 =
      [CliEvent.load_model,
       CliEvent.echo_err "Error: Render option is only available for format OCR type"] := by
  constructor
  · unfold api_process_image at hapi ⊢
    by_cases h1 : (f.by_file.isNone && !truthyOptStr f.by_base64) = true
    · rw [if_pos h1]
    · rw [if_neg h1] at hapi ⊢
      by_cases h2 : (f.render && !(f.ocr_type == OcrType.format)) = true
      · rw [if_pos h2]
      · rw [if_neg h2] at hapi
        cases hp : _process_image env f.by_file f.by_base64 f.ocr_type f.method
            f.render f.ocr_box f.ocr_color with
        | mk evs res =>
            rw [hp] at hapi
            cases res with
            | ok v => simp at hapi
            | error e =>
                simp only at hapi
                exact absurd (HttpResponse.error.inj hapi).1 (by decide)
  · unfold cli_process_image at hcli ⊢
    by_cases h3 : (r && !(t == "format")) = true
    · rw [if_pos h3]
    · rw [if_neg h3] at hcli
      cases o <;> simp at hcli

/-- C5 witness: the missing-input HTTP request and the render-mismatch CLI
invocation. -/
theorem C5_validation_before_model_witness :
    (api_process_image envT {}).2 =
      HttpResponse.error 400 "Either file or input_base64 must be provided" ∧
    (cli_process_image cliEnvT "img.png" "ocr" "chat" true none).2 =
      CliOutcome.aborted ∧
    ((api_process_image envT {}).1 = [] ∧
     (cli_process_image cliEnvT "img.png" "ocr" "chat" true none).1 =
       [CliEvent.load_model,
        CliEvent.echo_err "Error: Render option is only available for format OCR type"]) :=
  ⟨rfl, rfl,
   C5_validation_before_model envT {} "Either file or input_base64 must be provided"
     cliEnvT "img.png" "ocr" "chat" true none rfl rfl⟩

/-- C8: whenever the third-party-service operation returns its success
response, the code is 0, the message "success", the confidence exactly 1,
the time_cost the elapsed clock difference; every inference it triggered
used the fixed configuration ocr_type="ocr", tiled method, render=false;
and the whole operation is independent of the auth value. -/
theorem C8_bxn_fixed_config (env : Env) (bg ed : Int)
    (base64_image : Option String) (auth auth2 : ApiAuth)
    (c : Nat) (m : String) (d : BxnData) (b : Bool) (i : Image) (k : Kwargs)
    (hresp : (post_ocr_by_bxn_local_ocr env bg ed base64_image auth).2 =
      BxnResponse.ok c m d)
    (hev : Event.infer b i k ∈
      (post_ocr_by_bxn_local_ocr env bg ed base64_image auth).1) :
    c = 0 ∧ m = "success" ∧ d.confidence = 1 ∧ d.time_cost = ed - bg ∧
    b = true ∧ k.ocr_type = "ocr" ∧ k.render = false ∧
    post_ocr_by_bxn_local_ocr env bg ed base64_image auth2 =
      post_ocr_by_bxn_local_ocr env bg ed base64_image auth := by
  unfold post_ocr_by_bxn_local_ocr at hresp hev
  by_cases h1 : (!truthyOptStr base64_image) = true
  · rw [if_pos h1] at hresp
    simp at hresp
  · rw [if_neg h1] at hresp hev
    cases hp : _process_image env none base64_image OcrType.ocr Method.chat_crop
        false none none with
    | mk evs res =>
        rw [hp] at hresp hev
        cases res with
        | error e => simp at hresp
        | ok v =>
            simp only at hresp hev
            obtain ⟨hc, hm, hd⟩ := BxnResponse.ok.inj hresp
            have hh : Event.infer b i k ∈
                (_process_image env none base64_image OcrType.ocr Method.chat_crop
                  false none none).1 := by
              rw [hp]; exact hev
            have hk := underscore_infer_mem hh
            refine ⟨hc.symm, hm.symm, ?_, ?_, ?_, ?_, ?_, rfl⟩
            · rw [← hd]
            · rw [← hd]
            · simpa using hk.1
            · rw [hk.2]; rfl
            · rw [hk.2]; rfl

/-- C8 witness: a concrete successful call, with two distinct auth values. -/
theorem C8_bxn_fixed_config_witness :
    (post_ocr_by_bxn_local_ocr envT 10 12 (some "abc") { token := "t" }).2 =
      BxnResponse.ok 0 "success"
        { text := "RAW_CROP", confidence := 1, time_cost := 2 } ∧
    Event.infer true { mode := "RGB", width := 2, height := 3 }
        { ocr_type := "ocr", render := false, save_render_file := none,
          gradio_input := true, ocr_box := none, ocr_color := none } ∈
      (post_ocr_by_bxn_local_ocr envT 10 12 (some "abc") { token := "t" }).1 ∧
    ((0 : Nat) = 0 ∧ ("success" : String) = "success" ∧
     ({ text := "RAW_CROP", confidence := 1, time_cost := 2 } : BxnData).confidence = 1 ∧
     ({ text := "RAW_CROP", confidence := 1, time_cost := 2 } : BxnData).time_cost = 12 - 10 ∧
     (true : Bool) = true ∧
     ({ ocr_type := "ocr", render := false, save_render_file := none,
        gradio_input := true, ocr_box := none, ocr_color := none } : Kwargs).ocr_type = "ocr" ∧
     ({ ocr_type := "ocr", render := false, save_render_file := none,
        gradio_input := true, ocr_box := none, ocr_color := none } : Kwargs).render = false ∧
     post_ocr_by_bxn_local_ocr envT 10 12 (some "abc") { token := "u" } =
       post_ocr_by_bxn_local_ocr envT 10 12 (some "abc") { token := "t" }) :=
  ⟨rfl, by decide,
   C8_bxn_fixed_config envT 10 12 (some "abc") { token := "t" } { token := "u" }
     0 "success" { text := "RAW_CROP", confidence := 1, time_cost := 2 }
     true { mode := "RGB", width := 2, height := 3 }
     { ocr_type := "ocr", render := false, save_render_file := none,
       gradio_input := true, ocr_box := none, ocr_color := none }
     rfl (by decide)⟩

/-- C9: every failing call to the third-party-service operation yields the
structured bad-request body with code 400 (never a server-fault code), and
for an empty/missing base64_image the 400 is produced with an empty event
trace — no model invocation occurs. -/
theorem C9_bxn_failures_are_400 (env : Env) (bg ed : Int)
    (base64_image : Option String) (auth : ApiAuth) (c : Nat) (m : String) :
    (truthyOptStr base64_image = false →
      post_ocr_by_bxn_local_ocr env bg ed base64_image auth =
        ([], BxnResponse.badRequest 400 "base64_image is required and must non empty")) ∧
    ((post_ocr_by_bxn_local_ocr env bg ed base64_image auth).2 =
        BxnResponse.badRequest c m → c = 400) := by
  constructor
  · intro h
    unfold post_ocr_by_bxn_local_ocr
    rw [h]
    rfl
  · intro h
    unfold post_ocr_by_bxn_local_ocr at h
    by_cases h1 : (!truthyOptStr base64_image) = true
    · rw [if_pos h1] at h
      simp only at h
      exact ((BxnResponse.badRequest.inj h).1).symm
    · rw [if_neg h1] at h
      cases hp : _process_image env none base64_image OcrType.ocr Method.chat_crop
          false none none with
      | mk evs res =>
          rw [hp] at h
          cases res with
          | ok v => simp at h
          | error e =>
              simp only at h
              exact ((BxnResponse.badRequest.inj h).1).symm

/-- C9 witness: the empty base64_image call. -/
theorem C9_bxn_failures_are_400_witness :
    truthyOptStr (some "") = false ∧
    post_ocr_by_bxn_local_ocr envT 0 5 (some "") { token := "t" } =
      ([], BxnResponse.badRequest 400 "base64_image is required and must non empty") ∧
    (400 : Nat) = 400 :=
  ⟨rfl,
   (C9_bxn_failures_are_400 envT 0 5 (some "") { token := "t" } 400
     "base64_image is required and must non empty").1 rfl,
   (C9_bxn_failures_are_400 envT 0 5 (some "") { token := "t" } 400
     "base64_image is required and must non empty").2 rfl⟩

end OCRServer

